import Mathlib

/-!
Verification of the FX hedging platform's risk-simulation and hedge-policy core.

Shallow embedding, over `ℚ`, of:
* `src/services/monte_carlo_service.py` — `MonteCarloService.run_simulation`,
  `MonteCarloService.run_portfolio_simulation`, `estimate_volatility_from_pair`;
* `src/services/hedging_service.py` — `HedgingService.run_scenario_analysis`,
  `_classify_scenario`, `_summarize_scenarios`, `calculate_pnl_impact`,
  `_calculate_hedge_effectiveness`;
* `src/routes/settings_routes.py` — `cascade_policy` (the policy-cascade loop over a
  company's exposures).

Real-valued transcendentals that have no exact rational counterpart are abstracted as
parameters: `qexp` stands for `np.exp` and `sqrt_dt` for the constant `np.sqrt(1/252)`;
the standard-normal draw `shocks[i, t]` (produced under the fixed `np.random.seed(42)`)
is abstracted as a function parameter `shocks : ℕ → ℕ → ℚ`.  The structural and
algebraic facts proved below hold for every instantiation of these parameters.
-/

attribute [local semireducible] Rat.mul Rat.add Rat.sub Rat.inv Rat.ofScientific

/-- Floor of a rational, written computably (it agrees with `Int.floor`, see `qfloor_eq`). -/
def qfloor (x : ℚ) : ℤ := x.num / (x.den : ℤ)

/-- Banker's rounding of a rational to the nearest integer (ties to even), the rounding
used by Python's builtin `round`. -/
def roundHalfEven (x : ℚ) : ℤ :=
  let f := qfloor x
  let r := x - (f : ℚ)
  if r < 1/2 then f
  else if 1/2 < r then f + 1
  else if f % 2 = 0 then f else f + 1

/-- Python's `round(x, n)`: round to `n` decimal places, ties to even. -/
def pyRound (n : ℕ) (x : ℚ) : ℚ := (roundHalfEven ((10 ^ n : ℚ) * x) : ℚ) / (10 ^ n : ℚ)

/-- Ascending sort of a rational list (the order `np.percentile` works on). -/
def sortQ (l : List ℚ) : List ℚ := l.insertionSort (· ≤ ·)

/-- `np.min` of a sample (0 on the empty list, on which numpy instead errors;
the service only applies it to non-empty samples). -/
def listMin : List ℚ → ℚ
  | [] => 0
  | x :: xs => xs.foldl min x

/-- `np.max` of a sample (0 on the empty list). -/
def listMax : List ℚ → ℚ
  | [] => 0
  | x :: xs => xs.foldl max x

/-- `np.mean` of a sample: sum divided by length. -/
def listMean (l : List ℚ) : ℚ := l.sum / (l.length : ℚ)

/-- `np.percentile(a, q)` with numpy's default linear interpolation: on the ascending
sort `s` of `a`, the value at fractional position `q/100 * (len(a) - 1)`. -/
def npPercentile (a : List ℚ) (q : ℚ) : ℚ :=
  let s := sortQ a
  let n := a.length
  let pos : ℚ := q * ((n : ℚ) - 1) / 100
  let i : ℤ := qfloor pos
  let frac : ℚ := pos - (i : ℚ)
  let lo := s.getD i.toNat 0
  let hi := s.getD (min (i.toNat + 1) (n - 1)) 0
  lo + frac * (hi - lo)

/-- Elementwise `+` of two numpy 1-d arrays under numpy's broadcasting rule:
equal lengths add elementwise, a length-1 operand broadcasts, and any other
length mismatch raises (modelled as `none`). -/
def npAdd (a b : List ℚ) : Option (List ℚ) :=
  if a.length = b.length then some (List.zipWith (· + ·) a b)
  else if a.length = 1 then some (b.map (fun y => a.headD 0 + y))
  else if b.length = 1 then some (a.map (fun x => x + b.headD 0))
  else none

/-- Division that makes the (Python) division-by-zero fault explicit. -/
def qdivChecked (a b : ℚ) : Option ℚ := if b = 0 then none else some (a / b)

/-- Does `needle` occur at the start of `hay`? (character-list version of Python's
string matching). -/
def listStartsWith : List Char → List Char → Bool
  | _, [] => true
  | [], _ :: _ => false
  | h :: hs, n :: ns => h = n && listStartsWith hs ns

/-- Does `needle` occur contiguously anywhere in `hay`? (Python's `needle in hay`). -/
def listContainsSeq : List Char → List Char → Bool
  | [], needle => listStartsWith [] needle
  | h :: hs, needle => listStartsWith (h :: hs) needle || listContainsSeq hs needle

/-- Python's `needle in pair` on strings. -/
def strContains (hay needle : String) : Bool := listContainsSeq hay.toList needle.toList

/-! ### `MonteCarloService` (src/services/monte_carlo_service.py) -/

/-- `MonteCarloService.estimate_volatility_from_pair`. -/
def estimate_volatility_from_pair (currency_pair : String) : ℚ :=
  let major_pairs : List String := ["EURUSD", "GBPUSD", "USDJPY", "USDCHF", "AUDUSD", "USDCAD"]
  let pair_upper := currency_pair.toUpper
  if major_pairs.contains pair_upper then 8/100
  else if (["BRL", "MXN", "ZAR", "INR", "TRY"] : List String).any
      (fun em => strContains pair_upper em) then 15/100
  else if (["AUD", "NZD", "CAD", "NOK"] : List String).any
      (fun comm => strContains pair_upper comm) then 12/100
  else 10/100

/-- The `outcomes` entry of the dict returned by `run_simulation`:
`final_rates.tolist()[:100]` and friends. -/
structure SimulationOutcomes where
  simulated_rates : List ℚ
  simulated_values_usd : List ℚ
  simulated_pnl : List ℚ
  deriving DecidableEq

/-- The `risk_metrics` entry of the dict returned by `run_simulation`. -/
structure SimulationRiskMetrics where
  var_95 : ℚ
  var_99 : ℚ
  expected_loss : ℚ
  max_loss : ℚ
  max_gain : ℚ
  probability_of_loss : ℚ
  deriving DecidableEq

/-- The parts of `run_simulation`'s returned dict that the analysis below uses. -/
structure SimulationResult where
  outcomes : SimulationOutcomes
  risk_metrics : SimulationRiskMetrics
  deriving DecidableEq

/-- The terminal rates of `run_simulation`'s GBM loop (`rate_paths[:, -1]`): for each
scenario `i`, fold the daily step
`rate * exp((drift - 0.5*vol^2)*dt + vol*sqrt(dt)*shocks[i, t])` over
`time_horizon_days` steps with `dt = 1/252`, starting from `current_rate`. -/
def gbm_final_rates (qexp : ℚ → ℚ) (sqrt_dt : ℚ) (shocks : ℕ → ℕ → ℚ)
    (current_rate : ℚ) (time_horizon_days : ℕ) (volatility : ℚ) (num_scenarios : ℕ)
    (drift : ℚ) : List ℚ :=
  let dt : ℚ := 1/252
  let num_steps := time_horizon_days
  (List.range num_scenarios).map (fun i =>
    (List.range num_steps).foldl (fun r t =>
      r * qexp ((drift - 1/2 * volatility ^ 2) * dt + volatility * sqrt_dt * shocks i t))
      current_rate)

/-- The full per-scenario P&L vector of `run_simulation`:
`amount * final_rates - amount * current_rate`, elementwise. -/
def simulation_pnl (qexp : ℚ → ℚ) (sqrt_dt : ℚ) (shocks : ℕ → ℕ → ℚ)
    (current_rate amount : ℚ) (time_horizon_days : ℕ) (volatility : ℚ)
    (num_scenarios : ℕ) (drift : ℚ) : List ℚ :=
  ((gbm_final_rates qexp sqrt_dt shocks current_rate time_horizon_days volatility
      num_scenarios drift).map (fun f => amount * f)).map
    (fun v => v - amount * current_rate)

/-- `MonteCarloService.run_simulation`.  Mirrors the source line by line: GBM paths of
`time_horizon_days` daily steps with `dt = 1/252`, P&L against the initial value, then
risk metrics on the full P&L vector, while the returned `outcomes` lists are the
truncation `[:100]` of the full vectors.  The body performs no input validation.
`qexp`, `sqrt_dt` and `shocks` abstract `np.exp`, `np.sqrt(1/252)` and the seeded
standard-normal draw matrix. -/
def run_simulation (qexp : ℚ → ℚ) (sqrt_dt : ℚ) (shocks : ℕ → ℕ → ℚ)
    (current_rate amount : ℚ) (time_horizon_days : ℕ)
    (volatility : ℚ) (num_scenarios : ℕ) (drift : ℚ) : SimulationResult :=
  let final_rates : List ℚ := gbm_final_rates qexp sqrt_dt shocks current_rate
    time_horizon_days volatility num_scenarios drift
  let initial_value_usd := amount * current_rate
  let final_values_usd := final_rates.map (fun f => amount * f)
  let pnl := final_values_usd.map (fun v => v - initial_value_usd)
  let losses := pnl.filter (fun x => x < 0)
  { outcomes :=
      { simulated_rates := final_rates.take 100
        simulated_values_usd := final_values_usd.take 100
        simulated_pnl := pnl.take 100 }
    risk_metrics :=
      { var_95 := npPercentile pnl 5
        var_99 := npPercentile pnl 1
        expected_loss := if 0 < losses.length then listMean losses else 0
        max_loss := listMin pnl
        max_gain := listMax pnl
        probability_of_loss := (losses.length : ℚ) / (num_scenarios : ℚ) } }

/-- One entry of the `exposures` list handed to `run_portfolio_simulation`. -/
structure PortfolioExposure where
  id : ℕ
  amount : ℚ
  current_rate : ℚ
  currency_pair : String
  deriving DecidableEq

/-- The `portfolio_metrics` of `run_portfolio_simulation`, together with the summed
portfolio P&L vector it is computed from. -/
structure PortfolioMetrics where
  var_95 : ℚ
  var_99 : ℚ
  expected_loss : ℚ
  max_loss : ℚ
  max_gain : ℚ
  probability_of_loss : ℚ
  portfolio_pnl : List ℚ
  deriving DecidableEq

/-- `MonteCarloService.run_portfolio_simulation`: start from `np.zeros(num_scenarios)`,
for each exposure run `run_simulation` (volatility estimated from the currency pair,
drift 0) and add `result['outcomes']['simulated_pnl']` — the `[:100]`-truncated list —
into the accumulator with numpy addition (`npAdd`); a broadcast failure, which Python
raises as a `ValueError`, is `none`.  Metrics are then recomputed on the sum. -/
def run_portfolio_simulation (qexp : ℚ → ℚ) (sqrt_dt : ℚ) (shocks : ℕ → ℕ → ℚ)
    (exposures : List PortfolioExposure) (time_horizon_days : ℕ) (num_scenarios : ℕ) :
    Option PortfolioMetrics :=
  let folded : Option (List ℚ) := exposures.foldl
    (fun acc exp => acc.bind (fun portfolio_pnl =>
      let result := run_simulation qexp sqrt_dt shocks exp.current_rate exp.amount
        time_horizon_days (estimate_volatility_from_pair exp.currency_pair) num_scenarios 0
      npAdd portfolio_pnl result.outcomes.simulated_pnl))
    (some (List.replicate num_scenarios 0))
  folded.map (fun portfolio_pnl =>
    let portfolio_losses := portfolio_pnl.filter (fun x => x < 0)
    { var_95 := npPercentile portfolio_pnl 5
      var_99 := npPercentile portfolio_pnl 1
      expected_loss := if 0 < portfolio_losses.length then listMean portfolio_losses else 0
      max_loss := listMin portfolio_pnl
      max_gain := listMax portfolio_pnl
      probability_of_loss := (portfolio_losses.length : ℚ) / (num_scenarios : ℚ)
      portfolio_pnl := portfolio_pnl })

/-! ### `HedgingService` (src/services/hedging_service.py) -/

/-- `HedgingService.SCENARIOS` looked up with `.get(scenario_type, SCENARIOS['moderate'])`. -/
def scenarioShifts : String → List ℚ
  | "conservative" => [-(5/100), -(3/100), 0, 3/100, 5/100]
  | "moderate" => [-(10/100), -(5/100), 0, 5/100, 10/100]
  | "aggressive" => [-(15/100), -(10/100), -(5/100), 0, 5/100, 10/100, 15/100]
  | _ => [-(10/100), -(5/100), 0, 5/100, 10/100]

/-- `HedgingService._classify_scenario`. -/
def classify_scenario (rate_change : ℚ) : String :=
  if rate_change ≤ -(10/100) then "Severe Adverse"
  else if rate_change ≤ -(5/100) then "Moderate Adverse"
  else if rate_change < 0 then "Mild Adverse"
  else if rate_change = 0 then "No Change"
  else if rate_change ≤ 5/100 then "Mild Favorable"
  else if rate_change ≤ 10/100 then "Moderate Favorable"
  else "Severe Favorable"

/-- The "Favorable" label mirroring an "Adverse" label at the same magnitude
(the correspondence the specification's symmetry sentence describes). -/
def favorableCounterpart : String → String
  | "Severe Adverse" => "Severe Favorable"
  | "Moderate Adverse" => "Moderate Favorable"
  | "Mild Adverse" => "Mild Favorable"
  | s => s

/-- One entry of the `results` list built by `run_scenario_analysis`. -/
structure ScenarioRow where
  rate_change_pct : ℚ
  new_rate : ℚ
  unhedged_pnl : ℚ
  hedged_pnl : ℚ
  hedge_benefit : ℚ
  scenario : String
  deriving DecidableEq

/-- The loop body of `run_scenario_analysis` for a single `rate_change`. -/
def scenarioRow (exposure_amount current_rate hedge_ratio : ℚ) (rate_change : ℚ) :
    ScenarioRow :=
  let new_rate := current_rate * (1 + rate_change)
  let unhedged_pnl := exposure_amount * (new_rate - current_rate)
  let unhedged_amount := exposure_amount * (1 - hedge_ratio)
  let hedged_pnl := unhedged_amount * (new_rate - current_rate)
  let hedge_benefit := unhedged_pnl - hedged_pnl
  { rate_change_pct := pyRound 1 (rate_change * 100)
    new_rate := pyRound 6 new_rate
    unhedged_pnl := pyRound 2 unhedged_pnl
    hedged_pnl := pyRound 2 hedged_pnl
    hedge_benefit := pyRound 2 hedge_benefit
    scenario := classify_scenario rate_change }

/-- `HedgingService._summarize_scenarios`'s returned dict. -/
structure ScenarioSummary where
  worst_case_hedged : ℚ
  best_case_hedged : ℚ
  worst_case_unhedged : ℚ
  best_case_unhedged : ℚ
  avg_hedged : ℚ
  avg_unhedged : ℚ
  total_scenarios : ℕ
  deriving DecidableEq

/-- `HedgingService._summarize_scenarios`. -/
def summarize_scenarios (results : List ScenarioRow) : ScenarioSummary :=
  let hedged_pnls := results.map (fun r => r.hedged_pnl)
  let unhedged_pnls := results.map (fun r => r.unhedged_pnl)
  { worst_case_hedged := pyRound 2 (listMin hedged_pnls)
    best_case_hedged := pyRound 2 (listMax hedged_pnls)
    worst_case_unhedged := pyRound 2 (listMin unhedged_pnls)
    best_case_unhedged := pyRound 2 (listMax unhedged_pnls)
    avg_hedged := pyRound 2 (listMean hedged_pnls)
    avg_unhedged := pyRound 2 (listMean unhedged_pnls)
    total_scenarios := results.length }

/-- `run_scenario_analysis`'s returned dict. -/
structure ScenarioAnalysis where
  scenario_type : String
  hedge_ratio : ℚ
  current_rate : ℚ
  exposure_amount : ℚ
  scenarios : List ScenarioRow
  summary : ScenarioSummary
  deriving DecidableEq

/-- `HedgingService.run_scenario_analysis`. -/
def run_scenario_analysis (exposure_amount current_rate hedge_ratio : ℚ)
    (scenario_type : String) : ScenarioAnalysis :=
  let results := (scenarioShifts scenario_type).map
    (scenarioRow exposure_amount current_rate hedge_ratio)
  { scenario_type := scenario_type
    hedge_ratio := hedge_ratio
    current_rate := current_rate
    exposure_amount := exposure_amount
    scenarios := results
    summary := summarize_scenarios results }

/-- `HedgingService._calculate_hedge_effectiveness`.  The division
`hedged_pnl / unhedged_pnl` is written with `qdivChecked` so that a Python
`ZeroDivisionError` would show up as `none`. -/
def calculate_hedge_effectiveness (hedged_pnl unhedged_pnl : ℚ) : Option String :=
  if unhedged_pnl = 0 then some "Neutral"
  else
    (qdivChecked hedged_pnl unhedged_pnl).bind (fun ratio =>
      let effectiveness_pct := |ratio| * 100
      if hedged_pnl * unhedged_pnl < 0 then
        if 90 ≤ effectiveness_pct then some "Highly Effective"
        else if 70 ≤ effectiveness_pct then some "Effective"
        else some "Partially Effective"
      else some "Ineffective")

/-- `calculate_pnl_impact`'s returned dict. -/
structure PnLImpact where
  hedged_amount : ℚ
  unhedged_amount : ℚ
  contract_rate : ℚ
  current_rate : ℚ
  rate_difference : ℚ
  rate_difference_pct : ℚ
  hedged_pnl : ℚ
  unhedged_pnl : ℚ
  opportunity_impact : ℚ
  hedge_effectiveness : Option String
  deriving DecidableEq

/-- `HedgingService.calculate_pnl_impact`. -/
def calculate_pnl_impact (exposure_amount contract_rate current_rate hedge_ratio : ℚ) :
    PnLImpact :=
  let hedged_amount := exposure_amount * hedge_ratio
  let unhedged_amount := exposure_amount * (1 - hedge_ratio)
  let hedged_pnl := hedged_amount * (current_rate - contract_rate)
  let unhedged_pnl := exposure_amount * (current_rate - contract_rate)
  let opportunity_impact := hedged_pnl - unhedged_pnl
  { hedged_amount := pyRound 2 hedged_amount
    unhedged_amount := pyRound 2 unhedged_amount
    contract_rate := contract_rate
    current_rate := current_rate
    rate_difference := pyRound 6 (current_rate - contract_rate)
    rate_difference_pct := pyRound 2 ((current_rate - contract_rate) / contract_rate * 100)
    hedged_pnl := pyRound 2 hedged_pnl
    unhedged_pnl := pyRound 2 unhedged_pnl
    opportunity_impact := pyRound 2 opportunity_impact
    hedge_effectiveness := calculate_hedge_effectiveness hedged_pnl unhedged_pnl }

/-! ### Policy cascade (src/routes/settings_routes.py, `cascade_policy`) -/

/-- The exposure fields the cascade endpoint reads or writes. -/
structure Exposure where
  amount : ℚ
  current_rate : Option ℚ
  hedge_override : Bool
  hedge_ratio_policy : ℚ
  updated_at : ℕ
  deriving DecidableEq

/-- The policy row fields the cascade reads. -/
structure Policy where
  policy_name : String
  hedge_ratio_over_5m : ℚ
  hedge_ratio_1m_to_5m : ℚ
  hedge_ratio_under_1m : ℚ
  deriving DecidableEq

/-- Python's `exp.current_rate or 1`: `1` when the rate is missing (`None`) or `0.0`
(both falsy). -/
def rateOrOne : Option ℚ → ℚ
  | none => 1
  | some r => if r = 0 then 1 else r

/-- The tier selection of the cascade loop: `>= 5_000_000` takes the over-5m ratio,
then `>= 1_000_000` the 1m-to-5m ratio, else the under-1m ratio. -/
def tierRatio (p : Policy) (amount_usd : ℚ) : ℚ :=
  if 5000000 ≤ amount_usd then p.hedge_ratio_over_5m
  else if 1000000 ≤ amount_usd then p.hedge_ratio_1m_to_5m
  else p.hedge_ratio_under_1m

/-- The cascade loop body applied to one non-overridden exposure: recompute the
policy hedge ratio from `amount * (current_rate or 1)` and stamp `updated_at`. -/
def applyPolicy (p : Policy) (now : ℕ) (e : Exposure) : Exposure :=
  let amount_usd := e.amount * rateOrOne e.current_rate
  { e with hedge_ratio_policy := tierRatio p amount_usd, updated_at := now }

/-- Result of the cascade loop: the mutated exposure list (in place, same order) and
the `updated` / `skipped` counters. -/
structure CascadeOutcome where
  exposures : List Exposure
  updated : ℕ
  skipped : ℕ
  deriving DecidableEq

/-- The `for exp in exposures` loop of `cascade_policy`: an exposure with
`hedge_override` set is counted as skipped and left untouched (`continue`); any other
exposure gets the tier ratio for its size and is counted as updated. -/
def cascade_policy (p : Policy) (now : ℕ) : List Exposure → CascadeOutcome
  | [] => { exposures := [], updated := 0, skipped := 0 }
  | e :: rest =>
    if e.hedge_override then
      let out := cascade_policy p now rest
      { exposures := e :: out.exposures, updated := out.updated, skipped := out.skipped + 1 }
    else
      let out := cascade_policy p now rest
      { exposures := applyPolicy p now e :: out.exposures,
        updated := out.updated + 1, skipped := out.skipped }

/-! ### Helper lemmas -/

theorem qfloor_eq (x : ℚ) : qfloor x = ⌊x⌋ := (Rat.floor_def).symm

theorem pyRound_zero (n : ℕ) : pyRound n 0 = 0 := by
  simp [pyRound, roundHalfEven, qfloor]

/-! ### Claim theorems -/

/-- C10: when `unhedged_pnl` is exactly zero the effectiveness classification returns
"Neutral" without evaluating the effectiveness ratio, and the guarded division means
the operation never hits a division-by-zero fault (the result is always `some`). -/
theorem C10_effectiveness_zero_guard (hedged unhedged : ℚ) :
    (calculate_hedge_effectiveness hedged unhedged).isSome = true ∧
    (unhedged = 0 → calculate_hedge_effectiveness hedged unhedged = some "Neutral") := by
  constructor
  · by_cases hu : unhedged = 0
    · simp [calculate_hedge_effectiveness, hu]
    · simp only [calculate_hedge_effectiveness, qdivChecked, hu, if_false, ite_false,
        Option.some_bind]
      split_ifs <;> rfl
  · intro hu
    simp [calculate_hedge_effectiveness, hu]

/-- Witness for C10 at `hedged_pnl = 3`, `unhedged_pnl = 0`. -/
theorem C10_effectiveness_zero_guard_witness :
    (calculate_hedge_effectiveness 3 0).isSome = true ∧
    calculate_hedge_effectiveness 3 0 = some "Neutral" :=
  ⟨(C10_effectiveness_zero_guard 3 0).1, (C10_effectiveness_zero_guard 3 0).2 rfl⟩

/-- C9: `calculate_pnl_impact` returns `hedged_pnl = amount*ratio*(current-contract)`,
`unhedged_pnl = amount*(current-contract)` and `opportunity_impact` their difference
(each rounded to cents as the source does); whenever the two P&Ls have the same nonzero
sign the effectiveness is "Ineffective"; and the documented concrete case evaluates to
hedged 11,250.00 / unhedged 15,000.00 / opportunity −3,750.00, "Ineffective". -/
theorem C9_pnl_impact (a con cur r : ℚ)
    (hcon : 0 < con) (hcur : 0 < cur) (hr0 : 0 ≤ r) (hr1 : r ≤ 1) :
    ((calculate_pnl_impact a con cur r).hedged_pnl = pyRound 2 (a * r * (cur - con)) ∧
     (calculate_pnl_impact a con cur r).unhedged_pnl = pyRound 2 (a * (cur - con)) ∧
     (calculate_pnl_impact a con cur r).opportunity_impact =
       pyRound 2 (a * r * (cur - con) - a * (cur - con))) ∧
    (((0 < a * r * (cur - con) ∧ 0 < a * (cur - con)) ∨
      (a * r * (cur - con) < 0 ∧ a * (cur - con) < 0)) →
      (calculate_pnl_impact a con cur r).hedge_effectiveness = some "Ineffective") ∧
    calculate_pnl_impact 1000000 (1.0800) (1.0950) (3/4) =
      { hedged_amount := 750000, unhedged_amount := 250000, contract_rate := 27/25,
        current_rate := 219/200, rate_difference := 3/200, rate_difference_pct := 139/100,
        hedged_pnl := 11250, unhedged_pnl := 15000, opportunity_impact := -3750,
        hedge_effectiveness := some "Ineffective" } := by
  refine ⟨⟨rfl, rfl, rfl⟩, ?_, by decide⟩
  intro hsign
  have hu : a * (cur - con) ≠ 0 := by
    rcases hsign with ⟨_, h2⟩ | ⟨_, h2⟩
    · exact ne_of_gt h2
    · exact ne_of_lt h2
  have hprod : 0 < a * r * (cur - con) * (a * (cur - con)) := by
    rcases hsign with ⟨h1, h2⟩ | ⟨h1, h2⟩
    · exact mul_pos h1 h2
    · exact mul_pos_of_neg_of_neg h1 h2
  have hnlt : ¬ a * r * (cur - con) * (a * (cur - con)) < 0 := not_lt.mpr hprod.le
  show calculate_hedge_effectiveness (a * r * (cur - con)) (a * (cur - con)) =
    some "Ineffective"
  simp [calculate_hedge_effectiveness, qdivChecked, hu, hnlt]

/-- Witness for C9: the documented concrete case. -/
theorem C9_pnl_impact_witness :
    calculate_pnl_impact 1000000 (1.0800) (1.0950) (3/4) =
      { hedged_amount := 750000, unhedged_amount := 250000, contract_rate := 27/25,
        current_rate := 219/200, rate_difference := 3/200, rate_difference_pct := 139/100,
        hedged_pnl := 11250, unhedged_pnl := 15000, opportunity_impact := -3750,
        hedge_effectiveness := some "Ineffective" } :=
  (C9_pnl_impact 1000000 (1.0800) (1.0950) (3/4) (by norm_num) (by norm_num)
    (by norm_num) (by norm_num)).2.2

/-- C8: with `hedge_ratio = 1.0` every scenario row has `hedged_pnl = 0`; with
`hedge_ratio = 0.0` every row has `hedged_pnl = unhedged_pnl`; and the documented
concrete case (amount 1,000,000, rate 1.0850, ratio 0.50, "moderate", +5% shift)
yields new_rate 1.13925, unhedged 54,250.00, hedged 27,125.00, benefit 27,125.00. -/
theorem C8_scenario_hedge_ratio_extremes :
    (∀ (a c : ℚ) (st : String) (row : ScenarioRow),
        row ∈ (run_scenario_analysis a c 1 st).scenarios → row.hedged_pnl = 0) ∧
    (∀ (a c : ℚ) (st : String) (row : ScenarioRow),
        row ∈ (run_scenario_analysis a c 0 st).scenarios →
          row.hedged_pnl = row.unhedged_pnl) ∧
    (run_scenario_analysis 1000000 (1.0850) (1/2) "moderate").scenarios[3]? =
      some { rate_change_pct := 5, new_rate := 4557/4000, unhedged_pnl := 54250,
             hedged_pnl := 27125, hedge_benefit := 27125, scenario := "Mild Favorable" } := by
  refine ⟨?_, ?_, by decide⟩
  · intro a c st row hrow
    simp only [run_scenario_analysis, List.mem_map] at hrow
    obtain ⟨shift, _, rfl⟩ := hrow
    show pyRound 2 (a * (1 - 1) * (c * (1 + shift) - c)) = 0
    have h0 : a * (1 - 1) * (c * (1 + shift) - c) = 0 := by ring
    rw [h0, pyRound_zero]
  · intro a c st row hrow
    simp only [run_scenario_analysis, List.mem_map] at hrow
    obtain ⟨shift, _, rfl⟩ := hrow
    show pyRound 2 (a * (1 - 0) * (c * (1 + shift) - c)) =
      pyRound 2 (a * (c * (1 + shift) - c))
    have h0 : a * (1 - 0) * (c * (1 + shift) - c) = a * (c * (1 + shift) - c) := by ring
    rw [h0]

/-- Witness for C8 at amount 5, rate 7, the −10% shift of the "moderate" set. -/
theorem C8_scenario_hedge_ratio_extremes_witness :
    (scenarioRow 5 7 1 (-(10/100))).hedged_pnl = 0 ∧
    (scenarioRow 5 7 0 (-(10/100))).hedged_pnl = (scenarioRow 5 7 0 (-(10/100))).unhedged_pnl :=
  ⟨C8_scenario_hedge_ratio_extremes.1 5 7 "moderate" _ (by decide),
   C8_scenario_hedge_ratio_extremes.2.1 5 7 "moderate" _ (by decide)⟩

/-- C6 counterexample: the favorable/adverse labelling is not mirror-symmetric at the
band boundary +5%: the +5% shift is labelled "Mild Favorable" while the mirror of the
−5% label ("Moderate Adverse") would be "Moderate Favorable". -/
theorem C6_symmetry_counterexample :
    classify_scenario (5/100) ≠ favorableCounterpart (classify_scenario (-(5/100))) := by
  decide

/-- C6 amended: the adverse bands and "No Change" are as described, and the
favorable/adverse labels are mirror-symmetric for every positive shift except exactly
+5% and +10%, where the positive side falls in the milder band ("Mild Favorable" at
+5%, "Moderate Favorable" at +10%) because the negative bands include their boundary
while the positive bands are entered from below. -/
theorem C6_classification_bands (x : ℚ) (hx : 0 < x) (h5 : x ≠ 5/100) (h10 : x ≠ 10/100) :
    (∀ y : ℚ, y ≤ -(10/100) → classify_scenario y = "Severe Adverse") ∧
    (∀ y : ℚ, -(10/100) < y → y ≤ -(5/100) → classify_scenario y = "Moderate Adverse") ∧
    (∀ y : ℚ, -(5/100) < y → y < 0 → classify_scenario y = "Mild Adverse") ∧
    classify_scenario 0 = "No Change" ∧
    classify_scenario x = favorableCounterpart (classify_scenario (-x)) ∧
    classify_scenario (5/100) = "Mild Favorable" ∧
    classify_scenario (10/100) = "Moderate Favorable" := by
  refine ⟨?_, ?_, ?_, by decide, ?_, by decide, by decide⟩
  · intro y hy
    simp [classify_scenario, hy]
  · intro y hy1 hy2
    simp [classify_scenario, not_le.mpr hy1, hy2]
  · intro y hy1 hy2
    have h1 : ¬ y ≤ -(10/100) := by linarith
    have h2 : ¬ y ≤ -(5/100) := by linarith
    simp [classify_scenario, h1, h2, hy2]
  · rcases lt_trichotomy x (5/100) with h5a | h5a | h5a
    · simp only [classify_scenario, favorableCounterpart]
      rw [if_neg (by linarith : ¬ x ≤ -(10/100)), if_neg (by linarith : ¬ x ≤ -(5/100)),
        if_neg (by linarith : ¬ x < 0), if_neg (ne_of_gt hx), if_pos (le_of_lt h5a),
        if_neg (by linarith : ¬ -x ≤ -(10/100)), if_neg (by linarith : ¬ -x ≤ -(5/100)),
        if_pos (by linarith : -x < 0)]
      decide
    · exact absurd h5a h5
    · rcases lt_trichotomy x (10/100) with hA | hA | hA
      · simp only [classify_scenario, favorableCounterpart]
        rw [if_neg (by linarith : ¬ x ≤ -(10/100)), if_neg (by linarith : ¬ x ≤ -(5/100)),
          if_neg (by linarith : ¬ x < 0), if_neg (ne_of_gt hx),
          if_neg (by linarith : ¬ x ≤ 5/100), if_pos (le_of_lt hA),
          if_neg (by linarith : ¬ -x ≤ -(10/100)), if_pos (by linarith : -x ≤ -(5/100))]
        decide
      · exact absurd hA h10
      · simp only [classify_scenario, favorableCounterpart]
        rw [if_neg (by linarith : ¬ x ≤ -(10/100)), if_neg (by linarith : ¬ x ≤ -(5/100)),
          if_neg (by linarith : ¬ x < 0), if_neg (ne_of_gt hx),
          if_neg (by linarith : ¬ x ≤ 5/100), if_neg (by linarith : ¬ x ≤ 10/100),
          if_pos (by linarith : -x ≤ -(10/100))]
        decide

/-- Witness for C6 at x = 1/25 (a +4% shift). -/
theorem C6_classification_bands_witness :
    classify_scenario (-(1/5)) = "Severe Adverse" ∧
    classify_scenario (1/25) = favorableCounterpart (classify_scenario (-(1/25))) :=
  ⟨(C6_classification_bands (1/25) (by norm_num) (by norm_num) (by norm_num)).1 (-(1/5))
      (by norm_num),
   (C6_classification_bands (1/25) (by norm_num) (by norm_num) (by norm_num)).2.2.2.2.1⟩

/-- C4: a cascade run reports `updated + skipped` equal to the company's exposure
count, returns the exposure list at the same length and order, and leaves every
exposure whose override flag is set completely unchanged (the list entry at its
position is the input record, all fields included). -/
theorem C4_cascade_counts_and_override_frame (p : Policy) (now : ℕ)
    (exposures : List Exposure) :
    (cascade_policy p now exposures).updated + (cascade_policy p now exposures).skipped
        = exposures.length ∧
    (cascade_policy p now exposures).exposures.length = exposures.length ∧
    (∀ (i : ℕ) (e : Exposure), exposures[i]? = some e → e.hedge_override = true →
      (cascade_policy p now exposures).exposures[i]? = some e) := by
  induction exposures with
  | nil =>
    refine ⟨rfl, rfl, ?_⟩
    intro i e hi
    simp at hi
  | cons e0 rest ih =>
    obtain ⟨ih1, ih2, ih3⟩ := ih
    by_cases h0 : e0.hedge_override
    · refine ⟨?_, ?_, ?_⟩
      · simp only [cascade_policy, h0, if_true, List.length_cons]
        omega
      · simp only [cascade_policy, h0, if_true, List.length_cons]
        omega
      · intro i e hi hov
        match i with
        | 0 =>
          simp only [List.getElem?_cons_zero, Option.some.injEq] at hi
          subst hi
          simp [cascade_policy, h0]
        | i + 1 =>
          simp only [List.getElem?_cons_succ] at hi
          simp only [cascade_policy, h0, if_true, List.getElem?_cons_succ]
          exact ih3 i e hi hov
    · refine ⟨?_, ?_, ?_⟩
      · simp [cascade_policy, h0]
        omega
      · simp [cascade_policy, h0]
        omega
      · intro i e hi hov
        match i with
        | 0 =>
          simp only [List.getElem?_cons_zero, Option.some.injEq] at hi
          rw [hi] at h0
          exact absurd hov h0
        | i + 1 =>
          simp only [List.getElem?_cons_succ] at hi
          simp only [cascade_policy, h0, if_false, Bool.false_eq_true,
            List.getElem?_cons_succ]
          exact ih3 i e hi hov

/-- Witness for C4 on a one-element exposure list with the override flag set. -/
theorem C4_cascade_counts_and_override_frame_witness :
    (cascade_policy ⟨"P", 1, 1, 1⟩ 5 [⟨100, none, true, 1/3, 0⟩]).updated +
        (cascade_policy ⟨"P", 1, 1, 1⟩ 5 [⟨100, none, true, 1/3, 0⟩]).skipped = 1 ∧
    (cascade_policy ⟨"P", 1, 1, 1⟩ 5 [⟨100, none, true, 1/3, 0⟩]).exposures[0]? =
      some ⟨100, none, true, 1/3, 0⟩ :=
  ⟨(C4_cascade_counts_and_override_frame ⟨"P", 1, 1, 1⟩ 5 [⟨100, none, true, 1/3, 0⟩]).1,
   (C4_cascade_counts_and_override_frame ⟨"P", 1, 1, 1⟩ 5
      [⟨100, none, true, 1/3, 0⟩]).2.2 0 _ rfl rfl⟩

/-- C5: a non-overridden exposure processed by a cascade, at any position, gets its
hedge ratio set to `amount * current_rate` run through the ≥5M / ≥1M / otherwise tier
thresholds (when its rate is present and nonzero, which is when `current_rate or 1`
equals the rate); and the documented concrete case — tiers {0.85, 0.65, 0.40}, a $6M
non-overridden exposure and a $2M overridden one — updates the first to ratio 0.85,
leaves the second untouched, and reports updated 1, skipped 1. -/
theorem C5_cascade_tier_selection :
    (∀ (p : Policy) (now : ℕ) (pre : List Exposure) (e : Exposure) (post : List Exposure)
        (r : ℚ), e.current_rate = some r → r ≠ 0 → e.hedge_override = false →
        (cascade_policy p now (pre ++ e :: post)).exposures[pre.length]? =
          some { e with
                 hedge_ratio_policy :=
                   if 5000000 ≤ e.amount * r then p.hedge_ratio_over_5m
                   else if 1000000 ≤ e.amount * r then p.hedge_ratio_1m_to_5m
                   else p.hedge_ratio_under_1m,
                 updated_at := now }) ∧
    cascade_policy { policy_name := "Tiered", hedge_ratio_over_5m := 0.85,
                     hedge_ratio_1m_to_5m := 0.65, hedge_ratio_under_1m := 0.40 } 1
      [{ amount := 6000000, current_rate := some 1, hedge_override := false,
         hedge_ratio_policy := 1/2, updated_at := 0 },
       { amount := 2000000, current_rate := some 1, hedge_override := true,
         hedge_ratio_policy := 1/4, updated_at := 0 }] =
      { exposures := [{ amount := 6000000, current_rate := some 1, hedge_override := false,
                        hedge_ratio_policy := 0.85, updated_at := 1 },
                      { amount := 2000000, current_rate := some 1, hedge_override := true,
                        hedge_ratio_policy := 1/4, updated_at := 0 }],
        updated := 1, skipped := 1 } := by
  refine ⟨?_, by decide⟩
  intro p now pre
  induction pre with
  | nil =>
    intro e post r hr hrne hov
    have hro : rateOrOne e.current_rate = r := by
      rw [hr]
      simp [rateOrOne, hrne]
    simp only [List.nil_append, cascade_policy, hov, if_false, Bool.false_eq_true,
      List.length_nil, List.getElem?_cons_zero, Option.some.injEq, applyPolicy, hro,
      tierRatio]
  | cons e0 pre ih =>
    intro e post r hr hrne hov
    by_cases h0 : e0.hedge_override
    · simp only [List.cons_append, cascade_policy, h0, if_true, List.getElem?_cons_succ,
        List.length_cons]
      exact ih e post r hr hrne hov
    · simp only [List.cons_append, cascade_policy, h0, if_false, Bool.false_eq_true,
        List.getElem?_cons_succ, List.length_cons]
      exact ih e post r hr hrne hov

/-- Witness for C5: the $6M non-overridden exposure alone, tier table (0.85, 0.65, 0.40). -/
theorem C5_cascade_tier_selection_witness :
    (cascade_policy ⟨"Tiered", 17/20, 13/20, 2/5⟩ 1
        [⟨6000000, some 1, false, 1/2, 0⟩]).exposures[0]? =
      some ⟨6000000, some 1, false, 17/20, 1⟩ := by
  have h := C5_cascade_tier_selection.1 ⟨"Tiered", 17/20, 13/20, 2/5⟩ 1 []
    ⟨6000000, some 1, false, 1/2, 0⟩ [] 1 rfl (by norm_num) rfl
  norm_num at h
  exact h

set_option maxRecDepth 8000 in
/-- C1 counterexample: at the valid input `num_scenarios = 200` (with positive rate
and volatility and a one-day horizon) the returned `simulated_rates` sample does not
have length `num_scenarios` — the source truncates it with `[:100]`. -/
theorem C1_sample_length_counterexample :
    (run_simulation (fun x => x) 1 (fun _ _ => 0) (1/10) (1/10) 1 (1/10) 200
        0).outcomes.simulated_rates.length ≠ 200 := by
  decide

/-- C1 amended: for every valid input (positive rate and volatility, horizon in
[1,365], `num_scenarios` in [100,100000]) and every instantiation of the abstracted
real-analytic parameters, the returned `simulated_rates` and `simulated_pnl` lists
have length `min num_scenarios 100 = 100`, the `[:100]` truncation of the internal
length-`num_scenarios` vectors. -/
theorem C1_sample_length_truncated (qexp : ℚ → ℚ) (sqrt_dt : ℚ) (shocks : ℕ → ℕ → ℚ)
    (current_rate amount volatility drift : ℚ) (time_horizon_days num_scenarios : ℕ)
    (hc : 0 < current_rate) (hv : 0 < volatility)
    (hh1 : 1 ≤ time_horizon_days) (hh2 : time_horizon_days ≤ 365)
    (hn1 : 100 ≤ num_scenarios) (hn2 : num_scenarios ≤ 100000) :
    (run_simulation qexp sqrt_dt shocks current_rate amount time_horizon_days volatility
        num_scenarios drift).outcomes.simulated_rates.length = 100 ∧
    (run_simulation qexp sqrt_dt shocks current_rate amount time_horizon_days volatility
        num_scenarios drift).outcomes.simulated_pnl.length = 100 := by
  constructor <;>
  · simp only [run_simulation, gbm_final_rates, List.length_take, List.length_map,
      List.length_range]
    omega

/-- Witness for C1 (amended) at the smallest valid scenario count. -/
theorem C1_sample_length_truncated_witness :
    (run_simulation (fun x => x) 1 (fun _ _ => 0) 1 1 1 1 100
        0).outcomes.simulated_rates.length = 100 ∧
    (run_simulation (fun x => x) 1 (fun _ _ => 0) 1 1 1 1 100
        0).outcomes.simulated_pnl.length = 100 :=
  C1_sample_length_truncated (fun x => x) 1 (fun _ _ => 0) 1 1 1 0 1 100
    (by norm_num) (by norm_num) (by norm_num) (by norm_num) (by norm_num) (by norm_num)

set_option maxRecDepth 8000 in
/-- C2 (code bug evidence): with a single exposure and the valid scenario count 200,
the portfolio aggregation fails (numpy cannot broadcast the length-100 truncated
`simulated_pnl` into the `np.zeros(200)` accumulator) instead of computing the
elementwise sum of length-200 P&L vectors. -/
theorem C2_portfolio_broadcast_failure :
    run_portfolio_simulation (fun _ => 1) 1 (fun _ _ => 0)
      [{ id := 1, amount := 1000000, current_rate := 1.1234, currency_pair := "EUR/USD" }]
      1 200 = none := by
  decide

set_option maxRecDepth 8000 in
/-- C3 (code bug evidence): `run_simulation` performs no input validation: at the
out-of-range input `current_rate = -1` (amount 1,000,000, 90-day horizon, 8%
volatility, 100 scenarios) it does not raise any error but returns a fully populated
result — a 100-element outcome sample and computed risk metrics — where the
specification (and the repository's own `test_monte_carlo.py`) requires an
InvalidParameter failure before any randomness is drawn. -/
theorem C3_no_validation_of_inputs :
    (run_simulation (fun _ => 1) 1 (fun _ _ => 0) (-1) 1000000 90 (8/100) 100
        0).outcomes.simulated_pnl.length = 100 ∧
    (run_simulation (fun _ => 1) 1 (fun _ _ => 0) (-1) 1000000 90 (8/100) 100
        0).risk_metrics.probability_of_loss = 0 := by
  constructor <;> decide

/-! ### Sorting and percentile lemmas -/

theorem sortQ_length (l : List ℚ) : (sortQ l).length = l.length :=
  (List.perm_insertionSort _ l).length_eq

theorem sortQ_sorted (l : List ℚ) : (sortQ l).Sorted (· ≤ ·) :=
  List.sorted_insertionSort _ l

theorem sortQ_getD_mono (l : List ℚ) {i j : ℕ} (hij : i ≤ j) (hj : j < (sortQ l).length) :
    (sortQ l).getD i 0 ≤ (sortQ l).getD j 0 := by
  have hi : i < (sortQ l).length := lt_of_le_of_lt hij hj
  rw [List.getD_eq_getElem _ _ hi, List.getD_eq_getElem _ _ hj]
  have h := (sortQ_sorted l).rel_get_of_le (a := ⟨i, hi⟩) (b := ⟨j, hj⟩)
    (Fin.mk_le_mk.mpr hij)
  simpa using h

/-- Linear-interpolation percentiles are monotone in the percentile rank: for a
non-empty sample and `0 ≤ q1 ≤ q2 ≤ 100`, `npPercentile a q1 ≤ npPercentile a q2`. -/
theorem npPercentile_mono (a : List ℚ) (ha : a ≠ []) {q1 q2 : ℚ}
    (h0 : 0 ≤ q1) (h12 : q1 ≤ q2) (h100 : q2 ≤ 100) :
    npPercentile a q1 ≤ npPercentile a q2 := by
  have hn1 : 1 ≤ a.length := List.length_pos.mpr ha
  have hnq : (1 : ℚ) ≤ (a.length : ℚ) := by exact_mod_cast hn1
  simp only [npPercentile, qfloor_eq]
  set n := a.length with hn
  set s := sortQ a with hs
  have hslen : s.length = n := sortQ_length a
  set p1 : ℚ := q1 * ((n : ℚ) - 1) / 100 with hp1
  set p2 : ℚ := q2 * ((n : ℚ) - 1) / 100 with hp2
  have hp1nn : 0 ≤ p1 := by
    apply div_nonneg _ (by norm_num)
    exact mul_nonneg h0 (by linarith)
  have hple : p1 ≤ p2 := by
    rw [hp1, hp2]
    exact (div_le_div_iff_of_pos_right (by norm_num)).mpr
      (mul_le_mul_of_nonneg_right h12 (by linarith))
  have hp2le : p2 ≤ (n : ℚ) - 1 := by
    rw [hp2, div_le_iff₀ (by norm_num : (0:ℚ) < 100)]
    nlinarith
  have hf1nn : (0 : ℤ) ≤ ⌊p1⌋ := Int.floor_nonneg.mpr hp1nn
  have hf12 : ⌊p1⌋ ≤ ⌊p2⌋ := Int.floor_mono hple
  have hf2le : ⌊p2⌋ ≤ (n : ℤ) - 1 := by
    have h := Int.floor_mono hp2le
    rwa [show ((n : ℚ) - 1) = (((n : ℤ) - 1 : ℤ) : ℚ) by push_cast; ring,
      Int.floor_intCast] at h
  have hc1 : ((⌊p1⌋.toNat : ℤ)) = ⌊p1⌋ := Int.toNat_of_nonneg hf1nn
  have hc2 : ((⌊p2⌋.toNat : ℤ)) = ⌊p2⌋ := Int.toNat_of_nonneg (le_trans hf1nn hf12)
  have ha12 : ⌊p1⌋.toNat ≤ ⌊p2⌋.toNat := Int.toNat_le_toNat hf12
  have ha2len : ⌊p2⌋.toNat ≤ n - 1 := by omega
  have ha1len : ⌊p1⌋.toNat ≤ n - 1 := le_trans ha12 ha2len
  have hfr1nn : 0 ≤ p1 - (⌊p1⌋ : ℚ) := sub_nonneg.mpr (Int.floor_le p1)
  have hfr1le : p1 - (⌊p1⌋ : ℚ) ≤ 1 := by
    have := Int.lt_floor_add_one p1
    push_cast at this
    linarith
  have hfr2nn : 0 ≤ p2 - (⌊p2⌋ : ℚ) := sub_nonneg.mpr (Int.floor_le p2)
  have hmono : ∀ {i j : ℕ}, i ≤ j → j < n → s.getD i 0 ≤ s.getD j 0 := by
    intro i j hij hj
    exact sortQ_getD_mono a hij (by rwa [hslen])
  have hBA1 : 0 ≤ s.getD (min (⌊p1⌋.toNat + 1) (n - 1)) 0 - s.getD ⌊p1⌋.toNat 0 := by
    have := hmono (i := ⌊p1⌋.toNat) (j := min (⌊p1⌋.toNat + 1) (n - 1))
      (le_min (Nat.le_succ _) ha1len) (lt_of_le_of_lt (min_le_right _ _) (by omega))
    linarith
  have hBA2 : 0 ≤ s.getD (min (⌊p2⌋.toNat + 1) (n - 1)) 0 - s.getD ⌊p2⌋.toNat 0 := by
    have := hmono (i := ⌊p2⌋.toNat) (j := min (⌊p2⌋.toNat + 1) (n - 1))
      (le_min (Nat.le_succ _) ha2len) (lt_of_le_of_lt (min_le_right _ _) (by omega))
    linarith
  rcases eq_or_lt_of_le ha12 with heq | hlt
  · have hfe : ⌊p1⌋ = ⌊p2⌋ := by omega
    rw [heq, hfe]
    have hfr12 : p1 - (⌊p2⌋ : ℚ) ≤ p2 - (⌊p2⌋ : ℚ) := by linarith
    rw [heq] at hBA1
    nlinarith [mul_le_mul_of_nonneg_right hfr12 hBA1]
  · have step1 : s.getD ⌊p1⌋.toNat 0 + (p1 - (⌊p1⌋ : ℚ)) *
        (s.getD (min (⌊p1⌋.toNat + 1) (n - 1)) 0 - s.getD ⌊p1⌋.toNat 0) ≤
        s.getD (min (⌊p1⌋.toNat + 1) (n - 1)) 0 := by
      nlinarith [mul_le_mul_of_nonneg_right hfr1le hBA1]
    have step2 : s.getD (min (⌊p1⌋.toNat + 1) (n - 1)) 0 ≤ s.getD ⌊p2⌋.toNat 0 :=
      hmono (le_trans (min_le_left _ _) hlt) (by omega)
    have step3 : s.getD ⌊p2⌋.toNat 0 ≤ s.getD ⌊p2⌋.toNat 0 + (p2 - (⌊p2⌋ : ℚ)) *
        (s.getD (min (⌊p2⌋.toNat + 1) (n - 1)) 0 - s.getD ⌊p2⌋.toNat 0) := by
      nlinarith [mul_nonneg hfr2nn hBA2]
    linarith

theorem simulation_pnl_length (qexp : ℚ → ℚ) (sqrt_dt : ℚ) (shocks : ℕ → ℕ → ℚ)
    (current_rate amount : ℚ) (time_horizon_days : ℕ) (volatility : ℚ)
    (num_scenarios : ℕ) (drift : ℚ) :
    (simulation_pnl qexp sqrt_dt shocks current_rate amount time_horizon_days volatility
      num_scenarios drift).length = num_scenarios := by
  simp [simulation_pnl, gbm_final_rates]

set_option maxRecDepth 8000 in
/-- C7 counterexample: a P&L sample produced by the risk-metrics computation on which
`|VaR99| < |VaR95|`: with shocks making every terminal rate exceed the current rate,
all P&L values are gains, and the 1st percentile is a smaller positive number than the
5th percentile. -/
theorem C7_var_abs_counterexample :
    ¬ (|(run_simulation (fun x => x + 1) 1 (fun i _ => (i : ℚ) + 1) 1 1 1 1 100
          0).risk_metrics.var_99| ≥
       |(run_simulation (fun x => x + 1) 1 (fun i _ => (i : ℚ) + 1) 1 1 1 1 100
          0).risk_metrics.var_95|) := by
  decide

/-- C7 amended: on every P&L sample the computation produces (any scenario count ≥ 1),
`VaR99 ≤ VaR95` (percentiles are monotone in the rank); hence `|VaR99| ≥ |VaR95|`
whenever `VaR95 ≤ 0`, i.e. whenever the 5th percentile is a loss.  When even the 1st
percentile is a gain the absolute-value inequality can fail
(`C7_var_abs_counterexample`). -/
theorem C7_var99_below_var95 (qexp : ℚ → ℚ) (sqrt_dt : ℚ) (shocks : ℕ → ℕ → ℚ)
    (current_rate amount volatility drift : ℚ) (time_horizon_days num_scenarios : ℕ)
    (hn : 1 ≤ num_scenarios) :
    (run_simulation qexp sqrt_dt shocks current_rate amount time_horizon_days volatility
        num_scenarios drift).risk_metrics.var_99 ≤
      (run_simulation qexp sqrt_dt shocks current_rate amount time_horizon_days
        volatility num_scenarios drift).risk_metrics.var_95 ∧
    ((run_simulation qexp sqrt_dt shocks current_rate amount time_horizon_days
        volatility num_scenarios drift).risk_metrics.var_95 ≤ 0 →
      |(run_simulation qexp sqrt_dt shocks current_rate amount time_horizon_days
          volatility num_scenarios drift).risk_metrics.var_95| ≤
        |(run_simulation qexp sqrt_dt shocks current_rate amount time_horizon_days
            volatility num_scenarios drift).risk_metrics.var_99|) := by
  have hne : simulation_pnl qexp sqrt_dt shocks current_rate amount time_horizon_days
      volatility num_scenarios drift ≠ [] := by
    apply List.length_pos.mp
    rw [simulation_pnl_length]
    omega
  have hkey : (run_simulation qexp sqrt_dt shocks current_rate amount time_horizon_days
      volatility num_scenarios drift).risk_metrics.var_99 ≤
      (run_simulation qexp sqrt_dt shocks current_rate amount time_horizon_days
        volatility num_scenarios drift).risk_metrics.var_95 := by
    show npPercentile (simulation_pnl qexp sqrt_dt shocks current_rate amount
        time_horizon_days volatility num_scenarios drift) 1 ≤
      npPercentile (simulation_pnl qexp sqrt_dt shocks current_rate amount
        time_horizon_days volatility num_scenarios drift) 5
    exact npPercentile_mono _ hne (by norm_num) (by norm_num) (by norm_num)
  refine ⟨hkey, ?_⟩
  intro h95
  rw [abs_of_nonpos h95, abs_of_nonpos (le_trans hkey h95)]
  linarith

/-- Witness for C7 (amended) on an all-zero P&L sample (constant rate path). -/
theorem C7_var99_below_var95_witness :
    (run_simulation (fun _ => 1) 1 (fun _ _ => 0) 1 1 1 1 100
        0).risk_metrics.var_99 ≤
      (run_simulation (fun _ => 1) 1 (fun _ _ => 0) 1 1 1 1 100
        0).risk_metrics.var_95 ∧
    |(run_simulation (fun _ => 1) 1 (fun _ _ => 0) 1 1 1 1 100
        0).risk_metrics.var_95| ≤
      |(run_simulation (fun _ => 1) 1 (fun _ _ => 0) 1 1 1 1 100
          0).risk_metrics.var_99| :=
  ⟨(C7_var99_below_var95 (fun _ => 1) 1 (fun _ _ => 0) 1 1 1 0 1 100 (by norm_num)).1,
   (C7_var99_below_var95 (fun _ => 1) 1 (fun _ _ => 0) 1 1 1 0 1 100 (by norm_num)).2
     (by decide)⟩
